import Mathlib

/-!
Shallow embedding of `AudioProfiling/Assets/Tools/parse_audioprofiler.py`.

Modelling conventions:
* Python numbers (floats and ints) are modelled as exact rationals `ℚ`;
  the script only compares, adds and divides sample values, and
  `statistics.mean` computes the exact fraction internally, so exact
  rational arithmetic is the faithful idealisation used throughout.
* Python dicts with a fixed key set are modelled as structures; a key that
  may be absent becomes an `Option` field; a nested threshold dict that may
  be absent becomes an `Option` of the structure, with `{}` (all fields
  `none`) standing for the empty dict that `dict.get(key, {})` supplies.
* `sorted(values)` (Python's stable ascending sort) is modelled by
  `List.insertionSort (· ≤ ·)`.
* `sys.exit` / console output are modelled by returning the exit code and
  the error message as values (`Except String`).
-/

namespace AudioProfiler

/-- Result dict of `calculate_stats` (lines 75-88).  The empty-list branch
(line 78) returns a dict without a `"median"` key, the non-empty branch
(lines 81-88) returns one with it, so `median` is an `Option`: `none`
models the absent key. -/
structure StatDict where
  min : ℚ
  max : ℚ
  avg : ℚ
  median : Option ℚ
  p95 : ℚ
  p99 : ℚ
deriving DecidableEq

/-- `statistics.median(values)` from the Python standard library, as used
at line 85: sort ascending; odd length takes the middle element, even
length averages the two middle elements. -/
def statistics_median (values : List ℚ) : ℚ :=
  let s := values.insertionSort (· ≤ ·)
  let n := s.length
  if n % 2 = 1 then s.getD (n / 2) 0
  else (s.getD (n / 2 - 1) 0 + s.getD (n / 2) 0) / 2

/-- The zero-based index `int(len * p)` used for the percentile selection
at lines 86-87 (`int` truncates; the operand is non-negative, so this is
the floor). -/
def percentileIndex (n : ℕ) (p : ℚ) : ℕ := ⌊(n : ℚ) * p⌋₊

/-- `calculate_stats` (lines 75-88).  Empty input returns the all-zero
dict of line 78 (note: no `median` key).  Non-empty input returns
min/max/mean/median plus nearest-rank p95/p99 picked from the sorted copy
(the `if len(sorted_values) > 0` guards at lines 86-87 are vacuously true
in this branch).  `getD _ 0` models Python indexing; the index is proved
in bounds in `calculate_stats_percentile_index_in_bounds` below, so the
default is never consulted. -/
def calculate_stats : List ℚ → StatDict
  | [] => { min := 0, max := 0, avg := 0, median := none, p95 := 0, p99 := 0 }
  | v :: vs =>
    let values := v :: vs
    let sorted_values := values.insertionSort (· ≤ ·)
    { min := vs.foldl Min.min v
      max := vs.foldl Max.max v
      avg := values.sum / (values.length : ℚ)
      median := some (statistics_median values)
      p95 := sorted_values.getD (percentileIndex sorted_values.length 0.95) 0
      p99 := sorted_values.getD (percentileIndex sorted_values.length 0.99) 0 }

/-- One leaf of the CPU threshold dict: `{"max": ..., "avg": ...}`, either
key possibly absent in an override file. -/
structure SubMetricT where
  max : Option ℚ := none
  avg : Option ℚ := none
deriving DecidableEq

/-- `thresholds["fmod"]["cpu"]`: sub-metric dicts, each possibly absent. -/
structure FmodCpuT where
  dsp : Option SubMetricT := none
  stream : Option SubMetricT := none
  update : Option SubMetricT := none
  total : Option SubMetricT := none
deriving DecidableEq

/-- `thresholds["fmod"]["voices"]`: `{"max": ..., "avg": ...}`. -/
structure VoicesT where
  max : Option ℚ := none
  avg : Option ℚ := none
deriving DecidableEq

/-- `thresholds["fmod"]`. -/
structure FmodT where
  cpu : Option FmodCpuT := none
  voices : Option VoicesT := none
deriving DecidableEq

/-- `thresholds["unity"]["frame_ms"]`: `{"max": ..., "avg": ...}`. -/
structure FrameMsT where
  max : Option ℚ := none
  avg : Option ℚ := none
deriving DecidableEq

/-- `thresholds["unity"]`. -/
structure UnityT where
  frame_ms : Option FrameMsT := none
deriving DecidableEq

/-- A threshold policy document: every path optional (lines 91-98 and the
`.get(key, {})` fallbacks in `validate_metrics` tolerate any absence). -/
structure Thresholds where
  fmod : Option FmodT := none
  unity : Option UnityT := none
deriving DecidableEq

/-- The empty threshold document `{}`. -/
def emptyThresholds : Thresholds := {}

/-- `DEFAULT_THRESHOLDS` (lines 16-35). -/
def DEFAULT_THRESHOLDS : Thresholds :=
  { fmod := some
      { cpu := some
          { dsp := some { max := some 20.0, avg := some 10.0 }
            stream := some { max := some 5.0, avg := some 2.0 }
            update := some { max := some 2.0, avg := some 1.0 }
            total := some { max := some 25.0, avg := some 15.0 } }
        voices := some { max := some 64, avg := some 32 } }
    unity := some
      { frame_ms := some { max := some 33.0, avg := some 16.6 } } }

/-- `safe_get(data, k1, k2, default=d)` (lines 91-98) at the shape used in
`validate_metrics`: two keys, the first selecting an optional sub-dict and
the second an optional numeric entry.  If the first key is absent, `data`
becomes the numeric default and the second `.get` hits the non-dict branch,
returning the default; if only the second is absent, `.get` returns the
default. -/
def safe_get (data : Option SubMetricT) (key2 : SubMetricT → Option ℚ) (default : ℚ) : ℚ :=
  match data with
  | none => default
  | some m => (key2 m).getD default

/-- A validation message, modelled structurally: the Python code builds the
string from exactly these four components (name, statistic kind, observed
value, threshold), so the structure determines the message text. -/
structure Msg where
  name : String
  stat : String
  value : ℚ
  threshold : ℚ
deriving DecidableEq

/-- `ValidationResult` (lines 105-121): three lists, appended to in order. -/
structure ValidationResult where
  errors : List Msg
  warnings : List Msg
  info : List Msg
deriving DecidableEq

def ValidationResult.add_error (r : ValidationResult) (m : Msg) : ValidationResult :=
  { r with errors := r.errors ++ [m] }

def ValidationResult.add_warning (r : ValidationResult) (m : Msg) : ValidationResult :=
  { r with warnings := r.warnings ++ [m] }

def ValidationResult.add_info (r : ValidationResult) (m : Msg) : ValidationResult :=
  { r with info := r.info ++ [m] }

/-- `ValidationResult.has_failures` (lines 120-121): `len(errors) > 0`. -/
def ValidationResult.has_failures (r : ValidationResult) : Bool :=
  decide (r.errors.length > 0)

/-- `check_threshold` (lines 124-135): error on exceedance, info otherwise. -/
def check_threshold (name : String) (value threshold : ℚ) (stat_type : String)
    (result : ValidationResult) : ValidationResult :=
  if value > threshold then result.add_error ⟨name, stat_type, value, threshold⟩
  else result.add_info ⟨name, stat_type, value, threshold⟩

/-- The `stats` dict built in `main` (lines 325-332): six named series
summaries. -/
structure StatsMap where
  fmod_cpu_dsp : StatDict
  fmod_cpu_stream : StatDict
  fmod_cpu_update : StatDict
  fmod_cpu_total : StatDict
  voices : StatDict
  unity_frame_ms : StatDict
deriving DecidableEq

/-- The limit consulted for the FMOD DSP CPU `max` check:
`safe_get(fmod_thresholds, "dsp", "max", default=20.0)` where
`fmod_thresholds = thresholds.get("fmod", {}).get("cpu", {})`
(lines 143, 148). -/
def dspMaxLimit (t : Thresholds) : ℚ :=
  safe_get ((t.fmod.getD {}).cpu.getD {}).dsp SubMetricT.max 20.0

/-- The limit consulted for the FMOD DSP CPU `avg` check (line 156). -/
def dspAvgLimit (t : Thresholds) : ℚ :=
  safe_get ((t.fmod.getD {}).cpu.getD {}).dsp SubMetricT.avg 10.0

/-- The limit consulted for the FMOD Stream CPU `avg` check (line 164). -/
def streamAvgLimit (t : Thresholds) : ℚ :=
  safe_get ((t.fmod.getD {}).cpu.getD {}).stream SubMetricT.avg 2.0

/-- The limit consulted for the FMOD Total CPU `max` check (line 172). -/
def totalMaxLimit (t : Thresholds) : ℚ :=
  safe_get ((t.fmod.getD {}).cpu.getD {}).total SubMetricT.max 25.0

/-- The limit consulted for the voices `avg` warning check:
`voices_thresholds.get("avg", 32)` where
`voices_thresholds = thresholds.get("fmod", {}).get("voices", {})`
(lines 178, 180). -/
def voicesAvgLimit (t : Thresholds) : ℚ :=
  ((t.fmod.getD {}).voices.getD {}).avg.getD 32

/-- The limit consulted for the voices `max` error check (line 186). -/
def voicesMaxLimit (t : Thresholds) : ℚ :=
  ((t.fmod.getD {}).voices.getD {}).max.getD 64

/-- The limit consulted for the frame-time `avg` warning check:
`frame_thresholds.get("avg", 16.6)` where
`frame_thresholds = thresholds.get("unity", {}).get("frame_ms", {})`
(lines 193, 195). -/
def frameAvgLimit (t : Thresholds) : ℚ :=
  ((t.unity.getD {}).frame_ms.getD {}).avg.getD 16.6

/-- The limit consulted for the frame-time `max` error check (line 201). -/
def frameMaxLimit (t : Thresholds) : ℚ :=
  ((t.unity.getD {}).frame_ms.getD {}).max.getD 33.0

/-- The voices `avg` warning block (lines 180-184): warn when exceeded,
no finding otherwise. -/
def voicesAvgCheck (stats : StatsMap) (t : Thresholds) (result : ValidationResult) :
    ValidationResult :=
  if stats.voices.avg > voicesAvgLimit t then
    result.add_warning ⟨"Voices", "avg", stats.voices.avg, voicesAvgLimit t⟩
  else result

/-- The voices `max` error block (lines 186-190): error when exceeded,
no finding otherwise. -/
def voicesMaxCheck (stats : StatsMap) (t : Thresholds) (result : ValidationResult) :
    ValidationResult :=
  if stats.voices.max > voicesMaxLimit t then
    result.add_error ⟨"Voices", "max", stats.voices.max, voicesMaxLimit t⟩
  else result

/-- The frame-time `avg` warning block (lines 195-199). -/
def frameAvgCheck (stats : StatsMap) (t : Thresholds) (result : ValidationResult) :
    ValidationResult :=
  if stats.unity_frame_ms.avg > frameAvgLimit t then
    result.add_warning ⟨"Frame", "avg", stats.unity_frame_ms.avg, frameAvgLimit t⟩
  else result

/-- The frame-time `max` error block (lines 201-205). -/
def frameMaxCheck (stats : StatsMap) (t : Thresholds) (result : ValidationResult) :
    ValidationResult :=
  if stats.unity_frame_ms.max > frameMaxLimit t then
    result.add_error ⟨"Frame", "max", stats.unity_frame_ms.max, frameMaxLimit t⟩
  else result

/-- `validate_metrics` (lines 138-207), transcribed check for check in
source order; each consulted limit is the named lookup defined above, and
the four conditional warning/error blocks are the named blocks above. -/
def validate_metrics (stats : StatsMap) (thresholds : Thresholds) : ValidationResult :=
  let result : ValidationResult := ⟨[], [], []⟩
  let result := check_threshold "FMOD DSP CPU" stats.fmod_cpu_dsp.max
    (dspMaxLimit thresholds) "max" result
  let result := check_threshold "FMOD DSP CPU" stats.fmod_cpu_dsp.avg
    (dspAvgLimit thresholds) "avg" result
  let result := check_threshold "FMOD Stream CPU" stats.fmod_cpu_stream.avg
    (streamAvgLimit thresholds) "avg" result
  let result := check_threshold "FMOD Total CPU" stats.fmod_cpu_total.max
    (totalMaxLimit thresholds) "max" result
  let result := voicesAvgCheck stats thresholds result
  let result := voicesMaxCheck stats thresholds result
  let result := frameAvgCheck stats thresholds result
  let result := frameMaxCheck stats thresholds result
  result

/-- Verdict printed by `print_report` (lines 266-272). -/
inductive Verdict
  | PASS
  | FAIL
deriving DecidableEq

/-- `RESULT: FAIL` iff `result.has_failures()` (line 267), else `PASS`. -/
def verdict (r : ValidationResult) : Verdict :=
  if r.has_failures then Verdict.FAIL else Verdict.PASS

/-- `sys.exit(1 if result.has_failures() else 0)` (line 352). -/
def exitCode (r : ValidationResult) : ℕ :=
  if r.has_failures then 1 else 0

/-- The JSON report of `generate_report` (lines 214-224), restricted to its
`validation` section plus the statistics (the metadata echo carries no
logic). -/
structure Report where
  statistics : StatsMap
  passed : Bool
  errors : List Msg
  warnings : List Msg
deriving DecidableEq

/-- `generate_report` (lines 214-224): `passed` is `not has_failures()`. -/
def generate_report (stats : StatsMap) (result : ValidationResult) : Report :=
  { statistics := stats
    passed := !result.has_failures
    errors := result.errors
    warnings := result.warnings }

/-- One profiler sample record (a JSON object); each metric key may be
absent, and `s.get(key, 0)` (lines 314-319) substitutes `0`. -/
structure Sample where
  fmodCpuDsp : Option ℚ := none
  fmodCpuStream : Option ℚ := none
  fmodCpuUpdate : Option ℚ := none
  totalFmodCpu : Option ℚ := none
  voices : Option ℚ := none
  unityFrameMs : Option ℚ := none
deriving DecidableEq

/-- The parsed metrics document, restricted to the `samples` array that the
core logic consumes (`metrics.get("samples", [])`, line 295); the metadata
fields are echoed into the report without any logic. -/
structure MetricsDoc where
  samples : List Sample
deriving DecidableEq

/-- The fatal message printed when the document holds no samples
(line 297). -/
def noSamplesMsg : String := "[ERROR] No samples found in profiler output."

/-- The pure core of `main` (lines 294-352), after the metrics document and
the threshold policy have been loaded: reject an empty sample list with
exit code 1 (lines 296-298), otherwise extract the six series with a `0`
default (lines 314-319), summarise them (lines 325-332), validate
(line 335) and return the report together with the process exit code
(line 352).  `Except.error` models `sys.exit(1)` after printing the
message. -/
def run (metrics : MetricsDoc) (thresholds : Thresholds) : Except String (Report × ℕ) :=
  let samples := metrics.samples
  if samples.isEmpty then Except.error noSamplesMsg
  else
    let dsp_cpu := samples.map (fun s => s.fmodCpuDsp.getD 0)
    let stream_cpu := samples.map (fun s => s.fmodCpuStream.getD 0)
    let update_cpu := samples.map (fun s => s.fmodCpuUpdate.getD 0)
    let total_cpu := samples.map (fun s => s.totalFmodCpu.getD 0)
    let voices := samples.map (fun s => s.voices.getD 0)
    let frame_ms := samples.map (fun s => s.unityFrameMs.getD 0)
    let stats : StatsMap :=
      { fmod_cpu_dsp := calculate_stats dsp_cpu
        fmod_cpu_stream := calculate_stats stream_cpu
        fmod_cpu_update := calculate_stats update_cpu
        fmod_cpu_total := calculate_stats total_cpu
        voices := calculate_stats voices
        unity_frame_ms := calculate_stats frame_ms }
    let result := validate_metrics stats thresholds
    Except.ok (generate_report stats result, exitCode result)

/-- The process exit status of a full run: `1` on the fatal precondition
path, else the code chosen at line 352. -/
def mainExitCode (metrics : MetricsDoc) (thresholds : Thresholds) : ℕ :=
  match run metrics thresholds with
  | Except.error _ => 1
  | Except.ok (_, code) => code

/-- An all-zero statistics summary (concrete test input). -/
def zeroStat : StatDict := ⟨0, 0, 0, none, 0, 0⟩

/-- Concrete statistics where only the voices average exceeds its default
limit (40 > 32) while the voices maximum stays below its limit (50 ≤ 64)
and every other checked statistic is 0. -/
def statsVoicesWarnOnly : StatsMap :=
  { fmod_cpu_dsp := zeroStat, fmod_cpu_stream := zeroStat, fmod_cpu_update := zeroStat
    fmod_cpu_total := zeroStat, voices := ⟨0, 50, 40, none, 0, 0⟩, unity_frame_ms := zeroStat }

/-- Concrete statistics where the voices maximum exceeds its default limit
(100 > 64). -/
def statsVoicesMaxErr : StatsMap :=
  { fmod_cpu_dsp := zeroStat, fmod_cpu_stream := zeroStat, fmod_cpu_update := zeroStat
    fmod_cpu_total := zeroStat, voices := ⟨0, 100, 0, none, 0, 0⟩, unity_frame_ms := zeroStat }

/-- Severity of one finding. -/
inductive Severity
  | info
  | warning
  | error
deriving DecidableEq

/-- One classified finding: a message plus its severity. -/
structure Finding where
  severity : Severity
  msg : Msg
deriving DecidableEq

/-- The chronological sequence of findings emitted by `validate_metrics`,
one segment per check in source order (lines 145-205): each
`check_threshold` call contributes exactly one finding (error or info),
each warning/error comparison contributes one finding when the limit is
breached and none otherwise. -/
def validateTrace (stats : StatsMap) (thresholds : Thresholds) : List Finding :=
  let checked := fun (name : String) (value threshold : ℚ) (stat_type : String) =>
    if value > threshold then [⟨Severity.error, name, stat_type, value, threshold⟩]
    else ([⟨Severity.info, name, stat_type, value, threshold⟩] : List Finding)
  checked "FMOD DSP CPU" stats.fmod_cpu_dsp.max (dspMaxLimit thresholds) "max"
  ++ checked "FMOD DSP CPU" stats.fmod_cpu_dsp.avg (dspAvgLimit thresholds) "avg"
  ++ checked "FMOD Stream CPU" stats.fmod_cpu_stream.avg (streamAvgLimit thresholds) "avg"
  ++ checked "FMOD Total CPU" stats.fmod_cpu_total.max (totalMaxLimit thresholds) "max"
  ++ (if stats.voices.avg > voicesAvgLimit thresholds then
        [⟨Severity.warning, "Voices", "avg", stats.voices.avg, voicesAvgLimit thresholds⟩]
      else [])
  ++ (if stats.voices.max > voicesMaxLimit thresholds then
        [⟨Severity.error, "Voices", "max", stats.voices.max, voicesMaxLimit thresholds⟩]
      else [])
  ++ (if stats.unity_frame_ms.avg > frameAvgLimit thresholds then
        [⟨Severity.warning, "Frame", "avg", stats.unity_frame_ms.avg,
          frameAvgLimit thresholds⟩]
      else [])
  ++ (if stats.unity_frame_ms.max > frameMaxLimit thresholds then
        [⟨Severity.error, "Frame", "max", stats.unity_frame_ms.max,
          frameMaxLimit thresholds⟩]
      else [])

/-- Dispatch one finding into the result lists, as the corresponding
`add_error` / `add_warning` / `add_info` call does. -/
def applyFinding (r : ValidationResult) (f : Finding) : ValidationResult :=
  match f.severity with
  | Severity.error => r.add_error f.msg
  | Severity.warning => r.add_warning f.msg
  | Severity.info => r.add_info f.msg

/-- The fixed validation plan: the (check name, statistic kind) pairs in
the order the source performs them (lines 145-205). -/
def validationPlan : List (String × String) :=
  [("FMOD DSP CPU", "max"), ("FMOD DSP CPU", "avg"), ("FMOD Stream CPU", "avg"),
   ("FMOD Total CPU", "max"), ("Voices", "avg"), ("Voices", "max"),
   ("Frame", "avg"), ("Frame", "max")]

/-- Projection of a finding to its position key in the validation plan. -/
def Finding.key (f : Finding) : String × String := (f.msg.name, f.msg.stat)

/-- Findings of a given severity, in emission order. -/
def traceOf (stats : StatsMap) (thresholds : Thresholds) (sev : Severity) : List Msg :=
  ((validateTrace stats thresholds).filter (fun f => f.severity = sev)).map Finding.msg

/-! ## Theorems -/

/-- C3 counterexample: on the empty series the dict returned at line 78
has no `"median"` key at all, so the field `median` is not present (and in
particular not present with value `0`). -/
theorem calculate_stats_empty_median_absent :
    (calculate_stats []).median = none ∧ (calculate_stats []).median ≠ some 0 := by
  constructor
  · rfl
  · simp [calculate_stats]

/-- C3 (amended): `calculate_stats` on the empty series totally succeeds
and returns `min = max = avg = p95 = p99 = 0`, but the `median` field is
absent (the empty-branch dict at line 78 omits the `"median"` key). -/
theorem calculate_stats_empty :
    (calculate_stats []).min = 0 ∧ (calculate_stats []).max = 0 ∧
    (calculate_stats []).avg = 0 ∧ (calculate_stats []).p95 = 0 ∧
    (calculate_stats []).p99 = 0 ∧ (calculate_stats []).median = none := by
  refine ⟨rfl, rfl, rfl, rfl, rfl, rfl⟩

/-- C9: on a one-element series `[v]` every statistic equals `v`: min,
max, avg, median (present, with value `v`), p95 and p99. -/
theorem calculate_stats_singleton (v : ℚ) :
    (calculate_stats [v]).min = v ∧ (calculate_stats [v]).max = v ∧
    (calculate_stats [v]).avg = v ∧ (calculate_stats [v]).median = some v ∧
    (calculate_stats [v]).p95 = v ∧ (calculate_stats [v]).p99 = v := by
  have h95 : percentileIndex 1 0.95 = 0 := by
    simp [percentileIndex]
    norm_num
  have h99 : percentileIndex 1 0.99 = 0 := by
    simp [percentileIndex]
    norm_num
  refine ⟨rfl, rfl, by simp [calculate_stats], ?_, ?_, ?_⟩
  · simp [calculate_stats, statistics_median, List.insertionSort]
  · simp [calculate_stats, List.insertionSort, h95]
  · simp [calculate_stats, List.insertionSort, h99]

/-- C1: the verdict is `FAIL` iff at least one error finding exists;
results with the same errors list have the same verdict no matter their
warnings and info lists; the exit status is `0` iff the verdict is `PASS`
and `1` iff it is `FAIL`; and the report's `validation.passed` boolean is
`true` exactly when the errors list is empty. -/
theorem verdict_exit_passed (stats : StatsMap) (r : ValidationResult) :
    (verdict r = Verdict.FAIL ↔ r.errors ≠ []) ∧
    (∀ w i : List Msg, verdict { errors := r.errors, warnings := w, info := i } = verdict r) ∧
    (exitCode r = 0 ↔ verdict r = Verdict.PASS) ∧
    (exitCode r = 1 ↔ verdict r = Verdict.FAIL) ∧
    ((generate_report stats r).passed = true ↔ r.errors = []) := by
  have hf : r.has_failures = true ↔ r.errors ≠ [] := by
    simp [ValidationResult.has_failures, List.length_pos]
  refine ⟨?_, ?_, ?_, ?_, ?_⟩
  · by_cases h : r.has_failures <;> simp [verdict, h] <;> simp [hf] at h <;> tauto
  · intro w i
    simp [verdict, ValidationResult.has_failures]
  · by_cases h : r.has_failures <;> simp [verdict, exitCode, h]
  · by_cases h : r.has_failures <;> simp [verdict, exitCode, h]
  · by_cases h : r.has_failures <;> simp [generate_report, h] <;> simp [hf] at h <;> tauto

/-- C7: with the empty policy every checked (sub-metric, statistic-kind)
path resolves to the hardcoded inline default of its own call site, these
defaults agree with `DEFAULT_THRESHOLDS`, and consequently validation under
the empty policy produces exactly the same findings as under the built-in
default policy, for every statistics input. -/
theorem validate_empty_eq_default :
    (∀ stats : StatsMap, validate_metrics stats emptyThresholds =
      validate_metrics stats DEFAULT_THRESHOLDS) ∧
    safe_get ((emptyThresholds.fmod.getD {}).cpu.getD {}).dsp SubMetricT.max 20.0 =
      safe_get ((DEFAULT_THRESHOLDS.fmod.getD {}).cpu.getD {}).dsp SubMetricT.max 20.0 ∧
    safe_get ((emptyThresholds.fmod.getD {}).cpu.getD {}).dsp SubMetricT.avg 10.0 =
      safe_get ((DEFAULT_THRESHOLDS.fmod.getD {}).cpu.getD {}).dsp SubMetricT.avg 10.0 ∧
    safe_get ((emptyThresholds.fmod.getD {}).cpu.getD {}).stream SubMetricT.avg 2.0 =
      safe_get ((DEFAULT_THRESHOLDS.fmod.getD {}).cpu.getD {}).stream SubMetricT.avg 2.0 ∧
    safe_get ((emptyThresholds.fmod.getD {}).cpu.getD {}).total SubMetricT.max 25.0 =
      safe_get ((DEFAULT_THRESHOLDS.fmod.getD {}).cpu.getD {}).total SubMetricT.max 25.0 ∧
    ((emptyThresholds.fmod.getD {}).voices.getD {}).avg.getD 32 =
      ((DEFAULT_THRESHOLDS.fmod.getD {}).voices.getD {}).avg.getD 32 ∧
    ((emptyThresholds.fmod.getD {}).voices.getD {}).max.getD 64 =
      ((DEFAULT_THRESHOLDS.fmod.getD {}).voices.getD {}).max.getD 64 ∧
    ((emptyThresholds.unity.getD {}).frame_ms.getD {}).avg.getD 16.6 =
      ((DEFAULT_THRESHOLDS.unity.getD {}).frame_ms.getD {}).avg.getD 16.6 ∧
    ((emptyThresholds.unity.getD {}).frame_ms.getD {}).max.getD 33.0 =
      ((DEFAULT_THRESHOLDS.unity.getD {}).frame_ms.getD {}).max.getD 33.0 := by
  refine ⟨fun stats => ?_, rfl, rfl, rfl, rfl, rfl, rfl, rfl, rfl⟩
  rfl

/-- For any proportion `0 ≤ p < 1` the selection index `int(n * p)` is
strictly below `n`. -/
theorem percentileIndex_lt (n : ℕ) (hn : 0 < n) (p : ℚ) (hp0 : 0 ≤ p) (hp1 : p < 1) :
    percentileIndex n p < n := by
  unfold percentileIndex
  rw [Nat.floor_lt (by positivity)]
  calc (n : ℚ) * p < (n : ℚ) * 1 := by
        exact mul_lt_mul_of_pos_left hp1 (by exact_mod_cast hn)
    _ = n := mul_one _

/-- In the non-empty branch the `p95` field is exactly the sorted copy
indexed at `int(n * 0.95)` where `n` is the series length. -/
theorem calculate_stats_p95_eq (v : ℚ) (vs : List ℚ) :
    (calculate_stats (v :: vs)).p95 =
      ((v :: vs).insertionSort (· ≤ ·)).getD (percentileIndex (v :: vs).length 0.95) 0 := by
  show ((v :: vs).insertionSort (· ≤ ·)).getD
      (percentileIndex ((v :: vs).insertionSort (· ≤ ·)).length 0.95) 0 = _
  rw [List.length_insertionSort]

/-- In the non-empty branch the `p99` field is exactly the sorted copy
indexed at `int(n * 0.99)` where `n` is the series length. -/
theorem calculate_stats_p99_eq (v : ℚ) (vs : List ℚ) :
    (calculate_stats (v :: vs)).p99 =
      ((v :: vs).insertionSort (· ≤ ·)).getD (percentileIndex (v :: vs).length 0.99) 0 := by
  show ((v :: vs).insertionSort (· ≤ ·)).getD
      (percentileIndex ((v :: vs).insertionSort (· ≤ ·)).length 0.99) 0 = _
  rw [List.length_insertionSort]

/-- C10: for every non-empty series the selection indices `int(n * 0.95)`
and `int(n * 0.99)` computed at lines 86-87 are strictly below `n`, so the
unclipped indexing into the sorted copy is in bounds and `calculate_stats`
totally returns the selected elements. -/
theorem percentile_index_in_bounds (l : List ℚ) (h : l ≠ []) :
    percentileIndex l.length 0.95 < l.length ∧
    percentileIndex l.length 0.99 < l.length ∧
    (calculate_stats l).p95 =
      (l.insertionSort (· ≤ ·)).getD (percentileIndex l.length 0.95) 0 ∧
    (calculate_stats l).p99 =
      (l.insertionSort (· ≤ ·)).getD (percentileIndex l.length 0.99) 0 := by
  have hn : 0 < l.length := List.length_pos.mpr h
  cases l with
  | nil => exact absurd rfl h
  | cons v vs =>
    exact ⟨percentileIndex_lt _ hn _ (by norm_num) (by norm_num),
      percentileIndex_lt _ hn _ (by norm_num) (by norm_num),
      calculate_stats_p95_eq v vs, calculate_stats_p99_eq v vs⟩

/-- C4: for every non-empty series of length `n`, `p95` equals the element
of the ascending-sorted series at zero-based index
`min (⌊n * 0.95⌋) (n - 1)`, and `p99` likewise with `0.99` (the code's
unclipped index is always below `n`, so clipping never changes it). -/
theorem percentile_nearest_rank (l : List ℚ) (h : l ≠ []) :
    (calculate_stats l).p95 =
      (l.insertionSort (· ≤ ·)).getD (min (⌊(l.length : ℚ) * 0.95⌋₊) (l.length - 1)) 0 ∧
    (calculate_stats l).p99 =
      (l.insertionSort (· ≤ ·)).getD (min (⌊(l.length : ℚ) * 0.99⌋₊) (l.length - 1)) 0 := by
  have hn : 0 < l.length := List.length_pos.mpr h
  have h95 : min (⌊(l.length : ℚ) * 0.95⌋₊) (l.length - 1) =
      percentileIndex l.length 0.95 := by
    have hlt := percentileIndex_lt l.length hn 0.95 (by norm_num) (by norm_num)
    unfold percentileIndex at hlt ⊢
    exact min_eq_left (by omega)
  have h99 : min (⌊(l.length : ℚ) * 0.99⌋₊) (l.length - 1) =
      percentileIndex l.length 0.99 := by
    have hlt := percentileIndex_lt l.length hn 0.99 (by norm_num) (by norm_num)
    unfold percentileIndex at hlt ⊢
    exact min_eq_left (by omega)
  rw [h95, h99]
  cases l with
  | nil => exact absurd rfl h
  | cons v vs =>
    exact ⟨calculate_stats_p95_eq v vs, calculate_stats_p99_eq v vs⟩

/-- Python's `min(values)` (a left fold of binary min over the list) is a
lower bound of every element. -/
theorem foldl_min_le_mem (vs : List ℚ) (v : ℚ) : ∀ x ∈ v :: vs, vs.foldl Min.min v ≤ x := by
  induction vs generalizing v with
  | nil =>
    intro x hx
    rw [List.mem_singleton] at hx
    simp [hx]
  | cons w ws ih =>
    intro x hx
    have hhead : List.foldl Min.min (Min.min v w) ws ≤ Min.min v w :=
      ih (Min.min v w) (Min.min v w) (List.mem_cons_self _ _)
    simp only [List.foldl_cons]
    rcases List.mem_cons.mp hx with rfl | hx2
    · exact le_trans hhead (min_le_left _ _)
    rcases List.mem_cons.mp hx2 with rfl | hx3
    · exact le_trans hhead (min_le_right _ _)
    · exact ih (Min.min v w) x (List.mem_cons_of_mem _ hx3)

/-- Python's `max(values)` (a left fold of binary max over the list) is an
upper bound of every element. -/
theorem le_foldl_max_mem (vs : List ℚ) (v : ℚ) : ∀ x ∈ v :: vs, x ≤ vs.foldl Max.max v := by
  induction vs generalizing v with
  | nil =>
    intro x hx
    rw [List.mem_singleton] at hx
    simp [hx]
  | cons w ws ih =>
    intro x hx
    have hhead : Max.max v w ≤ List.foldl Max.max (Max.max v w) ws :=
      ih (Max.max v w) (Max.max v w) (List.mem_cons_self _ _)
    simp only [List.foldl_cons]
    rcases List.mem_cons.mp hx with rfl | hx2
    · exact le_trans (le_max_left _ _) hhead
    rcases List.mem_cons.mp hx2 with rfl | hx3
    · exact le_trans (le_max_right _ _) hhead
    · exact ih (Max.max v w) x (List.mem_cons_of_mem _ hx3)

/-- C5: for every non-empty series the summary satisfies
`min ≤ avg ≤ max`. -/
theorem stats_min_le_avg_le_max (l : List ℚ) (h : l ≠ []) :
    (calculate_stats l).min ≤ (calculate_stats l).avg ∧
    (calculate_stats l).avg ≤ (calculate_stats l).max := by
  cases l with
  | nil => exact absurd rfl h
  | cons v vs =>
    have hlen : (0 : ℚ) < ((v :: vs).length : ℚ) := by
      exact_mod_cast Nat.succ_pos vs.length
    have hmin : (calculate_stats (v :: vs)).min = vs.foldl Min.min v := rfl
    have hmax : (calculate_stats (v :: vs)).max = vs.foldl Max.max v := rfl
    have havg : (calculate_stats (v :: vs)).avg =
        (v :: vs).sum / (((v :: vs).length : ℕ) : ℚ) := rfl
    rw [hmin, hmax, havg]
    constructor
    · rw [le_div_iff₀ hlen]
      have hlb := List.card_nsmul_le_sum (v :: vs) (vs.foldl Min.min v)
        (foldl_min_le_mem vs v)
      rw [nsmul_eq_mul] at hlb
      linarith
    · rw [div_le_iff₀ hlen]
      have hub := List.sum_le_card_nsmul (v :: vs) (vs.foldl Max.max v)
        (le_foldl_max_mem vs v)
      rw [nsmul_eq_mul] at hub
      linarith

/-- Folding findings into a result appends the error messages of the
findings, in order, to the errors list. -/
theorem foldl_applyFinding_errors (fs : List Finding) (init : ValidationResult) :
    (fs.foldl applyFinding init).errors =
      init.errors ++ (fs.filter (fun f => f.severity = Severity.error)).map Finding.msg := by
  induction fs generalizing init with
  | nil => simp
  | cons f fs ih =>
    obtain ⟨sev, m⟩ := f
    cases sev <;>
      simp [applyFinding, ih, ValidationResult.add_error, ValidationResult.add_warning,
        ValidationResult.add_info]

/-- Folding findings into a result appends the warning messages of the
findings, in order, to the warnings list. -/
theorem foldl_applyFinding_warnings (fs : List Finding) (init : ValidationResult) :
    (fs.foldl applyFinding init).warnings =
      init.warnings ++ (fs.filter (fun f => f.severity = Severity.warning)).map Finding.msg := by
  induction fs generalizing init with
  | nil => simp
  | cons f fs ih =>
    obtain ⟨sev, m⟩ := f
    cases sev <;>
      simp [applyFinding, ih, ValidationResult.add_error, ValidationResult.add_warning,
        ValidationResult.add_info]

/-- Folding findings into a result appends the info messages of the
findings, in order, to the info list. -/
theorem foldl_applyFinding_info (fs : List Finding) (init : ValidationResult) :
    (fs.foldl applyFinding init).info =
      init.info ++ (fs.filter (fun f => f.severity = Severity.info)).map Finding.msg := by
  induction fs generalizing init with
  | nil => simp
  | cons f fs ih =>
    obtain ⟨sev, m⟩ := f
    cases sev <;>
      simp [applyFinding, ih, ValidationResult.add_error, ValidationResult.add_warning,
        ValidationResult.add_info]

/-- `check_threshold` is the fold of its one-finding trace segment. -/
theorem check_threshold_trace (name : String) (v th : ℚ) (st : String) (r : ValidationResult) :
    check_threshold name v th st r =
      (if v > th then [(⟨Severity.error, name, st, v, th⟩ : Finding)]
       else [(⟨Severity.info, name, st, v, th⟩ : Finding)]).foldl applyFinding r := by
  by_cases h : v > th <;> simp [check_threshold, applyFinding, h]

/-- The voices `avg` block is the fold of its at-most-one-finding trace
segment. -/
theorem voicesAvgCheck_trace (s : StatsMap) (t : Thresholds) (r : ValidationResult) :
    voicesAvgCheck s t r =
      (if s.voices.avg > voicesAvgLimit t then
        [(⟨Severity.warning, "Voices", "avg", s.voices.avg, voicesAvgLimit t⟩ : Finding)]
       else []).foldl applyFinding r := by
  by_cases h : s.voices.avg > voicesAvgLimit t <;> simp [voicesAvgCheck, applyFinding, h]

/-- The voices `max` block is the fold of its at-most-one-finding trace
segment. -/
theorem voicesMaxCheck_trace (s : StatsMap) (t : Thresholds) (r : ValidationResult) :
    voicesMaxCheck s t r =
      (if s.voices.max > voicesMaxLimit t then
        [(⟨Severity.error, "Voices", "max", s.voices.max, voicesMaxLimit t⟩ : Finding)]
       else []).foldl applyFinding r := by
  by_cases h : s.voices.max > voicesMaxLimit t <;> simp [voicesMaxCheck, applyFinding, h]

/-- The frame-time `avg` block is the fold of its at-most-one-finding
trace segment. -/
theorem frameAvgCheck_trace (s : StatsMap) (t : Thresholds) (r : ValidationResult) :
    frameAvgCheck s t r =
      (if s.unity_frame_ms.avg > frameAvgLimit t then
        [(⟨Severity.warning, "Frame", "avg", s.unity_frame_ms.avg, frameAvgLimit t⟩ : Finding)]
       else []).foldl applyFinding r := by
  by_cases h : s.unity_frame_ms.avg > frameAvgLimit t <;> simp [frameAvgCheck, applyFinding, h]

/-- The frame-time `max` block is the fold of its at-most-one-finding
trace segment. -/
theorem frameMaxCheck_trace (s : StatsMap) (t : Thresholds) (r : ValidationResult) :
    frameMaxCheck s t r =
      (if s.unity_frame_ms.max > frameMaxLimit t then
        [(⟨Severity.error, "Frame", "max", s.unity_frame_ms.max, frameMaxLimit t⟩ : Finding)]
       else []).foldl applyFinding r := by
  by_cases h : s.unity_frame_ms.max > frameMaxLimit t <;> simp [frameMaxCheck, applyFinding, h]

/-- `validate_metrics` is the fold of its chronological finding trace:
every check appends its finding (if any) to the per-severity list it
belongs to, in source order. -/
theorem validate_eq_foldl_trace (s : StatsMap) (t : Thresholds) :
    validate_metrics s t = (validateTrace s t).foldl applyFinding ⟨[], [], []⟩ := by
  simp only [validate_metrics, validateTrace, List.foldl_append, check_threshold_trace,
    voicesAvgCheck_trace, voicesMaxCheck_trace, frameAvgCheck_trace, frameMaxCheck_trace]

/-- The errors list of a validation run is the severity-`error` slice of
the chronological trace. -/
theorem validate_metrics_errors (s : StatsMap) (t : Thresholds) :
    (validate_metrics s t).errors = traceOf s t Severity.error := by
  rw [validate_eq_foldl_trace, traceOf, foldl_applyFinding_errors]
  rfl

/-- The warnings list of a validation run is the severity-`warning` slice
of the chronological trace. -/
theorem validate_metrics_warnings (s : StatsMap) (t : Thresholds) :
    (validate_metrics s t).warnings = traceOf s t Severity.warning := by
  rw [validate_eq_foldl_trace, traceOf, foldl_applyFinding_warnings]
  rfl

/-- The info list of a validation run is the severity-`info` slice of the
chronological trace. -/
theorem validate_metrics_info (s : StatsMap) (t : Thresholds) :
    (validate_metrics s t).info = traceOf s t Severity.info := by
  rw [validate_eq_foldl_trace, traceOf, foldl_applyFinding_info]
  rfl

/-- C2: if the voices average strictly exceeds its limit while the voices
maximum does not exceed its limit and no other checked statistic exceeds
its limit, then validation yields exactly one warning, zero errors and the
verdict `PASS`; conversely, exceeding the voices maximum limit puts an
error-severity voices finding in the errors list and forces `FAIL`. -/
theorem voices_threshold_asymmetry (s : StatsMap) (t : Thresholds) :
    (s.fmod_cpu_dsp.max ≤ dspMaxLimit t → s.fmod_cpu_dsp.avg ≤ dspAvgLimit t →
     s.fmod_cpu_stream.avg ≤ streamAvgLimit t → s.fmod_cpu_total.max ≤ totalMaxLimit t →
     voicesAvgLimit t < s.voices.avg → s.voices.max ≤ voicesMaxLimit t →
     s.unity_frame_ms.avg ≤ frameAvgLimit t → s.unity_frame_ms.max ≤ frameMaxLimit t →
       (validate_metrics s t).warnings.length = 1 ∧
       (validate_metrics s t).errors = [] ∧
       verdict (validate_metrics s t) = Verdict.PASS) ∧
    (voicesMaxLimit t < s.voices.max →
       (⟨"Voices", "max", s.voices.max, voicesMaxLimit t⟩ : Msg) ∈
         (validate_metrics s t).errors ∧
       verdict (validate_metrics s t) = Verdict.FAIL) := by
  constructor
  · intro h1 h2 h3 h4 h5 h6 h7 h8
    have n1 := not_lt.mpr h1
    have n2 := not_lt.mpr h2
    have n3 := not_lt.mpr h3
    have n4 := not_lt.mpr h4
    have n6 := not_lt.mpr h6
    have n7 := not_lt.mpr h7
    have n8 := not_lt.mpr h8
    have herr : (validate_metrics s t).errors = [] := by
      rw [validate_metrics_errors]
      simp [traceOf, validateTrace, n1, n2, n3, n4, h5, n6, n7, n8]
    have hwarn : (validate_metrics s t).warnings.length = 1 := by
      rw [validate_metrics_warnings]
      simp [traceOf, validateTrace, n1, n2, n3, n4, h5, n6, n7, n8]
    exact ⟨hwarn, herr, by simp [verdict, ValidationResult.has_failures, herr]⟩
  · intro h
    have hmem : (⟨"Voices", "max", s.voices.max, voicesMaxLimit t⟩ : Msg) ∈
        (validate_metrics s t).errors := by
      rw [validate_metrics_errors]
      simp [traceOf, validateTrace, List.filter_append, List.mem_append, h]
    refine ⟨hmem, ?_⟩
    have hne : (validate_metrics s t).errors ≠ [] := List.ne_nil_of_mem hmem
    simp [verdict, ValidationResult.has_failures, List.length_pos, hne]

/-- Witness for C2 at concrete inputs: `statsVoicesWarnOnly` triggers
exactly the voices warning under the default limits, and
`statsVoicesMaxErr` triggers the voices-max error and a `FAIL`. -/
theorem voices_threshold_asymmetry_witness :
    ((validate_metrics statsVoicesWarnOnly emptyThresholds).warnings.length = 1 ∧
     (validate_metrics statsVoicesWarnOnly emptyThresholds).errors = [] ∧
     verdict (validate_metrics statsVoicesWarnOnly emptyThresholds) = Verdict.PASS) ∧
    ((⟨"Voices", "max", statsVoicesMaxErr.voices.max, voicesMaxLimit emptyThresholds⟩ : Msg) ∈
       (validate_metrics statsVoicesMaxErr emptyThresholds).errors ∧
     verdict (validate_metrics statsVoicesMaxErr emptyThresholds) = Verdict.FAIL) :=
  ⟨(voices_threshold_asymmetry statsVoicesWarnOnly emptyThresholds).1
      (by norm_num [statsVoicesWarnOnly, zeroStat, dspMaxLimit, safe_get, emptyThresholds])
      (by norm_num [statsVoicesWarnOnly, zeroStat, dspAvgLimit, safe_get, emptyThresholds])
      (by norm_num [statsVoicesWarnOnly, zeroStat, streamAvgLimit, safe_get, emptyThresholds])
      (by norm_num [statsVoicesWarnOnly, zeroStat, totalMaxLimit, safe_get, emptyThresholds])
      (by norm_num [statsVoicesWarnOnly, zeroStat, voicesAvgLimit, emptyThresholds])
      (by norm_num [statsVoicesWarnOnly, zeroStat, voicesMaxLimit, emptyThresholds])
      (by norm_num [statsVoicesWarnOnly, zeroStat, frameAvgLimit, emptyThresholds])
      (by norm_num [statsVoicesWarnOnly, zeroStat, frameMaxLimit, emptyThresholds]),
   (voices_threshold_asymmetry statsVoicesMaxErr emptyThresholds).2
      (by norm_num [statsVoicesMaxErr, zeroStat, voicesMaxLimit, emptyThresholds])⟩

/-- C6: the chronological findings of a validation run, projected to
their (check name, statistic kind) keys, form a sublist of the fixed
validation plan — FMOD DSP CPU max, FMOD DSP CPU avg, FMOD Stream CPU avg,
FMOD Total CPU max, voices avg, voices max, frame avg, frame max — so
findings are always appended in plan order; and the per-severity lists of
`validate_metrics` are exactly the severity slices of that chronological
trace (order is a function of the input alone, hence identical across any
two runs on identical input). -/
theorem validation_plan_order (s : StatsMap) (t : Thresholds) :
    ((validateTrace s t).map Finding.key).Sublist validationPlan ∧
    (validate_metrics s t).errors = traceOf s t Severity.error ∧
    (validate_metrics s t).warnings = traceOf s t Severity.warning ∧
    (validate_metrics s t).info = traceOf s t Severity.info := by
  refine ⟨?_, validate_metrics_errors s t, validate_metrics_warnings s t,
    validate_metrics_info s t⟩
  have hplan : validationPlan =
      [("FMOD DSP CPU", "max")] ++ [("FMOD DSP CPU", "avg")] ++ [("FMOD Stream CPU", "avg")] ++
      [("FMOD Total CPU", "max")] ++ [("Voices", "avg")] ++ [("Voices", "max")] ++
      [("Frame", "avg")] ++ [("Frame", "max")] := rfl
  rw [hplan]
  simp only [validateTrace, List.map_append]
  refine List.Sublist.append (List.Sublist.append (List.Sublist.append (List.Sublist.append
    (List.Sublist.append (List.Sublist.append (List.Sublist.append ?_ ?_) ?_) ?_) ?_) ?_)
      ?_) ?_ <;>
    (split <;> simp [Finding.key])

/-- C8: when the metrics document holds zero samples the run fails with
the dedicated empty-input message and exit code 1; the outcome does not
depend on the threshold policy at all (the rejection happens before any
statistics or threshold logic). -/
theorem empty_samples_fatal (m : MetricsDoc) (t t2 : Thresholds) (h : m.samples = []) :
    run m t = Except.error noSamplesMsg ∧ mainExitCode m t = 1 ∧ run m t = run m t2 := by
  have he : m.samples.isEmpty = true := by simp [h]
  simp [run, mainExitCode, he]

/-- Witness for C8: the document with an empty sample list is rejected
with the empty-input message and exit code 1, under any of two policies. -/
theorem empty_samples_fatal_witness :
    run ⟨[]⟩ emptyThresholds = Except.error noSamplesMsg ∧
    mainExitCode ⟨[]⟩ emptyThresholds = 1 ∧
    run ⟨[]⟩ emptyThresholds = run ⟨[]⟩ DEFAULT_THRESHOLDS :=
  empty_samples_fatal ⟨[]⟩ emptyThresholds DEFAULT_THRESHOLDS rfl

/-- Witness for C10 at the concrete series `[1, 2, 3]`. -/
theorem percentile_index_in_bounds_witness :
    percentileIndex ([1, 2, 3] : List ℚ).length 0.95 < ([1, 2, 3] : List ℚ).length ∧
    percentileIndex ([1, 2, 3] : List ℚ).length 0.99 < ([1, 2, 3] : List ℚ).length ∧
    (calculate_stats ([1, 2, 3] : List ℚ)).p95 =
      (([1, 2, 3] : List ℚ).insertionSort (· ≤ ·)).getD
        (percentileIndex ([1, 2, 3] : List ℚ).length 0.95) 0 ∧
    (calculate_stats ([1, 2, 3] : List ℚ)).p99 =
      (([1, 2, 3] : List ℚ).insertionSort (· ≤ ·)).getD
        (percentileIndex ([1, 2, 3] : List ℚ).length 0.99) 0 :=
  percentile_index_in_bounds [1, 2, 3] (by simp)

/-- Witness for C4 at the concrete series `[1, 2, 3]`. -/
theorem percentile_nearest_rank_witness :
    (calculate_stats ([1, 2, 3] : List ℚ)).p95 =
      (([1, 2, 3] : List ℚ).insertionSort (· ≤ ·)).getD
        (min (⌊(([1, 2, 3] : List ℚ).length : ℚ) * 0.95⌋₊) (([1, 2, 3] : List ℚ).length - 1)) 0 ∧
    (calculate_stats ([1, 2, 3] : List ℚ)).p99 =
      (([1, 2, 3] : List ℚ).insertionSort (· ≤ ·)).getD
        (min (⌊(([1, 2, 3] : List ℚ).length : ℚ) * 0.99⌋₊) (([1, 2, 3] : List ℚ).length - 1)) 0 :=
  percentile_nearest_rank [1, 2, 3] (by simp)

/-- Witness for C5 at the concrete series `[1, 2, 4]`. -/
theorem stats_min_le_avg_le_max_witness :
    (calculate_stats ([1, 2, 4] : List ℚ)).min ≤ (calculate_stats ([1, 2, 4] : List ℚ)).avg ∧
    (calculate_stats ([1, 2, 4] : List ℚ)).avg ≤ (calculate_stats ([1, 2, 4] : List ℚ)).max :=
  stats_min_le_avg_le_max [1, 2, 4] (by simp)

end AudioProfiler
